import Mathlib

/-!
Verification of the redox runtime governance engine
(`src/core/governance/*.py`) against its natural-language specification.

The Python modules are shallowly embedded as pure Lean functions:
  * floats become exact rationals (every constant in the source is a
    short decimal, represented exactly);
  * mutation of dataclasses becomes functional record update;
  * `time.time()` becomes an explicit `now : Rat` argument;
  * file and socket effects are passed in as explicit data.
-/

namespace Redox

/-! ## modes.py — enumerations and presets -/

inductive OperationalMode
  | DEVELOPMENT
  | PRODUCTION
  | PARANOID
  | FORENSIC
deriving DecidableEq, Repr

inductive SecurityPosture
  | OPEN
  | GUARDED
  | HARDENED
  | LOCKDOWN
deriving DecidableEq, Repr

inductive PerformanceProfile
  | ECO
  | BALANCED
  | TURBO
deriving DecidableEq, Repr

/-- `.name` of the Python enum member, used in log / reason strings. -/
def SecurityPosture.pname : SecurityPosture → String
  | .OPEN => "OPEN"
  | .GUARDED => "GUARDED"
  | .HARDENED => "HARDENED"
  | .LOCKDOWN => "LOCKDOWN"

/-- One row of `SECURITY_PRESETS` (all three keys are present for every
posture in the source table). -/
structure SecurityPreset where
  require_signed_intents : Bool
  min_reputation : Rat
  sandbox_strictness : String
deriving DecidableEq, Repr

/-- `SECURITY_PRESETS` from modes.py. -/
def SECURITY_PRESETS : SecurityPosture → SecurityPreset
  | .OPEN => ⟨false, 0.0, "soft"⟩
  | .GUARDED => ⟨true, 0.2, "hard"⟩
  | .HARDENED => ⟨true, 0.4, "hard"⟩
  | .LOCKDOWN => ⟨true, 0.6, "vm"⟩

/-! ## trace.py — DecisionTrace -/

structure DecisionTrace where
  intent_id : String
  timestamp : Rat
  mode_snapshot : String
  security_posture : String
  performance_profile : String
  risk_score : Rat
  semantic_risk : Rat
  behavioral_risk : Rat
  actor_reputation : Rat
  confidence_score : Rat
  /-- The source stores `uncertainty = variance ** 0.5`.  The square root
  of a rational is irrational in general, so the embedding stores the
  square of the field, `variance`; the spec-level standard deviation is
  `Real.sqrt` of this value (see the C5 theorem). -/
  uncertaintySq : Rat
  recommended_action : String
  load_level : String
  qos_adjusted : Bool
  decision : String
  reasons : List String
  overridden : Bool
  override_by : String
  override_justification : String
deriving DecidableEq, Repr

/-- The dataclass constructor defaults of `DecisionTrace` (every field the
engine does not pass explicitly). -/
def DecisionTrace.init (intent_id : String) (timestamp : Rat)
    (mode_snapshot security_posture performance_profile : String)
    (actor_reputation : Rat) (load_level : String) (qos_adjusted : Bool) :
    DecisionTrace :=
  { intent_id := intent_id
    timestamp := timestamp
    mode_snapshot := mode_snapshot
    security_posture := security_posture
    performance_profile := performance_profile
    risk_score := 0.0
    semantic_risk := 0.0
    behavioral_risk := 0.0
    actor_reputation := actor_reputation
    confidence_score := 0.0
    uncertaintySq := 0.0
    recommended_action := ""
    load_level := load_level
    qos_adjusted := qos_adjusted
    decision := "PENDING"
    reasons := []
    overridden := false
    override_by := ""
    override_justification := "" }

def DecisionTrace.add_reason (t : DecisionTrace) (reason : String) : DecisionTrace :=
  { t with reasons := t.reasons ++ [reason] }

/-- `DecisionTrace.compute_confidence` from trace.py.  The Python default
argument `quorum_score=1.0` is always passed explicitly by callers of this
embedding. -/
def DecisionTrace.compute_confidence (t : DecisionTrace)
    (w_semantic w_behavioral w_reputation quorum_score : Rat) : DecisionTrace :=
  let weighted_risk :=
    w_semantic * t.semantic_risk
      + w_behavioral * t.behavioral_risk
      + w_reputation * (1.0 - t.actor_reputation)
  let risk_score := min (max weighted_risk 0.0) 1.0
  let confidence_score := (1.0 - risk_score) * quorum_score
  let factors : List Rat := [t.semantic_risk, t.behavioral_risk, 1.0 - t.actor_reputation]
  let mean := factors.sum / (factors.length : Rat)
  let variance := (factors.map (fun f => (f - mean) ^ 2)).sum / (factors.length : Rat)
  let recommended_action :=
    if confidence_score ≥ 0.8 then "safe_execution"
    else if confidence_score ≥ 0.6 then "monitor"
    else if confidence_score ≥ 0.4 then "manual_review"
    else "block"
  { t with
      risk_score := risk_score
      confidence_score := confidence_score
      uncertaintySq := variance
      recommended_action := recommended_action }

def DecisionTrace.apply_override (t : DecisionTrace)
    (operator new_decision justification : String) : DecisionTrace :=
  let t := { t with
      overridden := true
      override_by := operator
      override_justification := justification
      decision := new_decision }
  t.add_reason ("HUMAN OVERRIDE by " ++ operator ++ ": " ++ justification)

/-! ## qos.py — AdaptiveQoSController -/

inductive LoadLevel
  | IDLE
  | NORMAL
  | ELEVATED
  | CRITICAL
  | OVERLOAD
deriving DecidableEq, Repr

/-- `.value` of the Python `LoadLevel` enum member. -/
def LoadLevel.value : LoadLevel → String
  | .IDLE => "idle"
  | .NORMAL => "normal"
  | .ELEVATED => "elevated"
  | .CRITICAL => "critical"
  | .OVERLOAD => "overload"

structure SystemMetrics where
  cpu_usage : Rat
  memory_usage : Rat
  queue_depth : Int
  avg_latency_ms : Rat
  error_rate : Rat
  p2p_packet_loss : Rat
  timestamp : Rat
deriving DecidableEq, Repr

structure QoSAdjustment where
  speed_multiplier : Rat
  fuel_multiplier : Rat
  rate_limit_multiplier : Rat
  shed_low_priority : Bool
  load_level : LoadLevel
  reasons : List String
deriving DecidableEq, Repr

/-- The dataclass defaults of `QoSAdjustment`. -/
def QoSAdjustment.initial : QoSAdjustment :=
  { speed_multiplier := 1.0
    fuel_multiplier := 1.0
    rate_limit_multiplier := 1.0
    shed_low_priority := false
    load_level := LoadLevel.NORMAL
    reasons := [] }

/-- The mutable configuration attributes of `AdaptiveQoSController`
(constructor parameters; the first two are overwritten by
`GovernanceEngine.reload_policy`). -/
structure QoSConfig where
  backpressure_threshold : Int
  latency_threshold_ms : Rat
  cpu_threshold : Rat
  memory_threshold : Rat
  adaptive_throttling : Bool
deriving DecidableEq, Repr

/-- The constructor defaults of `AdaptiveQoSController`. -/
def QoSConfig.initial : QoSConfig :=
  { backpressure_threshold := 100
    latency_threshold_ms := 200.0
    cpu_threshold := 0.85
    memory_threshold := 0.90
    adaptive_throttling := true }

/-- Rule 1 of `evaluate`: CPU pressure. -/
def qosRuleCpu (cfg : QoSConfig) (m : SystemMetrics) (adj : QoSAdjustment) : QoSAdjustment :=
  if m.cpu_usage > cfg.cpu_threshold then
    { adj with
        speed_multiplier := min adj.speed_multiplier 0.6
        fuel_multiplier := min adj.fuel_multiplier 0.5
        reasons := adj.reasons ++
          ["CPU " ++ toString m.cpu_usage ++ " > threshold " ++ toString cfg.cpu_threshold] }
  else adj

/-- Rule 2 of `evaluate`: memory pressure. -/
def qosRuleMemory (cfg : QoSConfig) (m : SystemMetrics) (adj : QoSAdjustment) : QoSAdjustment :=
  if m.memory_usage > cfg.memory_threshold then
    { adj with
        fuel_multiplier := min adj.fuel_multiplier 0.3
        reasons := adj.reasons ++
          ["Memory " ++ toString m.memory_usage ++ " > threshold " ++ toString cfg.memory_threshold] }
  else adj

/-- Rule 3 of `evaluate`: queue backpressure.  `ratio` in the source is the
true division `queue_depth / backpressure_threshold` (Python `/` on ints). -/
def qosRuleQueue (cfg : QoSConfig) (m : SystemMetrics) (adj : QoSAdjustment) : QoSAdjustment :=
  if m.queue_depth > cfg.backpressure_threshold then
    let ratioVal : Rat := (m.queue_depth : Rat) / (cfg.backpressure_threshold : Rat)
    { adj with
        rate_limit_multiplier := min adj.rate_limit_multiplier (1.0 / ratioVal)
        shed_low_priority := decide (ratioVal > 2.0)
        reasons := adj.reasons ++
          ["Queue depth " ++ toString m.queue_depth ++ " > threshold "
            ++ toString cfg.backpressure_threshold] }
  else adj

/-- Rule 4 of `evaluate`: latency degradation. -/
def qosRuleLatency (cfg : QoSConfig) (m : SystemMetrics) (adj : QoSAdjustment) : QoSAdjustment :=
  if m.avg_latency_ms > cfg.latency_threshold_ms then
    let slowdown := cfg.latency_threshold_ms / m.avg_latency_ms
    { adj with
        speed_multiplier := min adj.speed_multiplier slowdown
        reasons := adj.reasons ++
          ["Latency " ++ toString m.avg_latency_ms ++ "ms > threshold "
            ++ toString cfg.latency_threshold_ms ++ "ms"] }
  else adj

/-- Rule 5 of `evaluate`: network degradation. -/
def qosRuleLoss (_cfg : QoSConfig) (m : SystemMetrics) (adj : QoSAdjustment) : QoSAdjustment :=
  if m.p2p_packet_loss > 0.1 then
    { adj with
        rate_limit_multiplier := min adj.rate_limit_multiplier 0.5
        reasons := adj.reasons ++
          ["Packet loss " ++ toString m.p2p_packet_loss ++ " - reducing P2P rate"] }
  else adj

/-- `AdaptiveQoSController._classify_load`. -/
def classifyLoad (cfg : QoSConfig) (m : SystemMetrics) (adj : QoSAdjustment) : LoadLevel :=
  if adj.shed_low_priority then LoadLevel.OVERLOAD
  else if m.cpu_usage > cfg.cpu_threshold ∨ m.queue_depth > cfg.backpressure_threshold then
    LoadLevel.CRITICAL
  else if m.cpu_usage > 0.70 ∨ m.avg_latency_ms > cfg.latency_threshold_ms * 0.8 then
    LoadLevel.ELEVATED
  else if m.cpu_usage > 0.30 then LoadLevel.NORMAL
  else LoadLevel.IDLE

/-- `AdaptiveQoSController.evaluate`.  Returns the adjustment and the new
history ring (`_history`, capped at the last 60 snapshots).  The
`adaptive_throttling` flag is read by the source only to gate a warning
log line, which has no counterpart in the embedding. -/
def qosEvaluate (cfg : QoSConfig) (hist : List SystemMetrics) (m : SystemMetrics) :
    QoSAdjustment × List SystemMetrics :=
  let h := hist ++ [m]
  let h := if h.length > 60 then h.drop (h.length - 60) else h
  let adj := qosRuleLoss cfg m
    (qosRuleLatency cfg m (qosRuleQueue cfg m (qosRuleMemory cfg m
      (qosRuleCpu cfg m QoSAdjustment.initial))))
  ({ adj with load_level := classifyLoad cfg m adj }, h)

/-! ## circuit_breaker.py — CircuitBreaker -/

inductive BreakerState
  | CLOSED
  | OPEN
  | HALF_OPEN
deriving DecidableEq, Repr

structure BreakerStatus where
  name : String
  state : BreakerState
  failure_count : Nat
  success_count : Nat
  last_failure_time : Rat
  last_state_change : Rat
  total_trips : Nat
deriving DecidableEq, Repr

/-- The tunable knobs of `CircuitBreaker` (shared by all breakers the
manager owns). -/
structure BreakerConfig where
  failure_threshold : Nat
  recovery_timeout_s : Rat
  half_open_max_probes : Nat
deriving DecidableEq, Repr

def BreakerConfig.initial : BreakerConfig :=
  { failure_threshold := 5, recovery_timeout_s := 30.0, half_open_max_probes := 1 }

/-- `CircuitBreaker._transition`: stamps `last_state_change` with the
current time and zeroes `success_count`. -/
def breakerTransition (b : BreakerStatus) (new_state : BreakerState) (now : Rat) :
    BreakerStatus :=
  { b with state := new_state, success_count := 0, last_state_change := now }

/-- `CircuitBreaker.allow_request` for one registered breaker; returns the
answer and the (possibly OPEN to HALF_OPEN transitioned) breaker status. -/
def allowRequest (cfg : BreakerConfig) (b : BreakerStatus) (now : Rat) :
    Bool × BreakerStatus :=
  match b.state with
  | BreakerState.CLOSED => (true, b)
  | BreakerState.OPEN =>
      if now - b.last_state_change ≥ cfg.recovery_timeout_s then
        (true, breakerTransition b BreakerState.HALF_OPEN now)
      else (false, b)
  | BreakerState.HALF_OPEN =>
      (decide (b.success_count < cfg.half_open_max_probes), b)

/-- `CircuitBreaker.record_success` for one registered breaker. -/
def recordSuccess (cfg : BreakerConfig) (b : BreakerStatus) (now : Rat) : BreakerStatus :=
  match b.state with
  | BreakerState.HALF_OPEN =>
      let b := { b with success_count := b.success_count + 1 }
      if b.success_count ≥ cfg.half_open_max_probes then
        { breakerTransition b BreakerState.CLOSED now with failure_count := 0 }
      else b
  | BreakerState.CLOSED => { b with failure_count := 0 }
  | BreakerState.OPEN => b

/-- `CircuitBreaker.record_failure` for one registered breaker. -/
def recordFailure (cfg : BreakerConfig) (b : BreakerStatus) (now : Rat) : BreakerStatus :=
  let b := { b with failure_count := b.failure_count + 1, last_failure_time := now }
  match b.state with
  | BreakerState.HALF_OPEN => breakerTransition b BreakerState.OPEN now
  | BreakerState.CLOSED =>
      if b.failure_count ≥ cfg.failure_threshold then
        { breakerTransition b BreakerState.OPEN now with total_trips := b.total_trips + 1 }
      else b
  | BreakerState.OPEN => b

/-! ## policy.py — RuntimePolicy -/

structure RuntimePolicy where
  mode : OperationalMode
  security_posture : SecurityPosture
  performance_profile : PerformanceProfile
  cognitive_speed : Rat
  ssai_threshold : Rat
  ssai_depth : String
  /-- `quorum_ratio` in the source. -/
  quorum_frac : Rat
  consensus_timeout_ms : Int
  max_fuel_per_intent : Int
  p2p_rate_limit : Int
  require_signed_intents : Bool
  sandbox_strictness : String
  min_reputation : Rat
  max_parallel_intents : Int
  queue_backpressure_threshold : Int
  adaptive_throttling : Bool
  allow_manual_override : Bool
  risk_weight_semantic : Rat
  risk_weight_behavioral : Rat
  risk_weight_reputation : Rat
deriving DecidableEq, Repr

/-- `RuntimePolicy.default(mode)` from policy.py. -/
def RuntimePolicy.defaultFor (mode : OperationalMode) : RuntimePolicy :=
  match mode with
  | OperationalMode.DEVELOPMENT =>
    { mode := mode
      security_posture := SecurityPosture.OPEN
      performance_profile := PerformanceProfile.TURBO
      cognitive_speed := 1.0
      ssai_threshold := 0.4
      ssai_depth := "normal"
      quorum_frac := 0.51
      consensus_timeout_ms := 5000
      max_fuel_per_intent := 1000000
      p2p_rate_limit := 1000
      require_signed_intents := false
      sandbox_strictness := "soft"
      min_reputation := 0.0
      max_parallel_intents := 50
      queue_backpressure_threshold := 200
      adaptive_throttling := false
      allow_manual_override := true
      risk_weight_semantic := 0.5
      risk_weight_behavioral := 0.3
      risk_weight_reputation := 0.2 }
  | OperationalMode.PRODUCTION =>
    { mode := mode
      security_posture := SecurityPosture.GUARDED
      performance_profile := PerformanceProfile.BALANCED
      cognitive_speed := 1.0
      ssai_threshold := 0.6
      ssai_depth := "normal"
      quorum_frac := 0.67
      consensus_timeout_ms := 3000
      max_fuel_per_intent := 500000
      p2p_rate_limit := 100
      require_signed_intents := true
      sandbox_strictness := "hard"
      min_reputation := 0.2
      max_parallel_intents := 20
      queue_backpressure_threshold := 100
      adaptive_throttling := true
      allow_manual_override := true
      risk_weight_semantic := 0.5
      risk_weight_behavioral := 0.3
      risk_weight_reputation := 0.2 }
  | OperationalMode.PARANOID =>
    { mode := mode
      security_posture := SecurityPosture.LOCKDOWN
      performance_profile := PerformanceProfile.BALANCED
      cognitive_speed := 2.0
      ssai_threshold := 0.85
      ssai_depth := "deep"
      quorum_frac := 0.90
      consensus_timeout_ms := 2000
      max_fuel_per_intent := 50000
      p2p_rate_limit := 10
      require_signed_intents := true
      sandbox_strictness := "vm"
      min_reputation := 0.5
      max_parallel_intents := 5
      queue_backpressure_threshold := 20
      adaptive_throttling := true
      allow_manual_override := false
      risk_weight_semantic := 0.6
      risk_weight_behavioral := 0.25
      risk_weight_reputation := 0.15 }
  | OperationalMode.FORENSIC =>
    { mode := mode
      security_posture := SecurityPosture.LOCKDOWN
      performance_profile := PerformanceProfile.ECO
      cognitive_speed := 0.5
      ssai_threshold := 0.95
      ssai_depth := "deep"
      quorum_frac := 1.0
      consensus_timeout_ms := 10000
      max_fuel_per_intent := 0
      p2p_rate_limit := 5
      require_signed_intents := true
      sandbox_strictness := "vm"
      min_reputation := 0.8
      max_parallel_intents := 1
      queue_backpressure_threshold := 5
      adaptive_throttling := false
      allow_manual_override := true
      risk_weight_semantic := 0.5
      risk_weight_behavioral := 0.3
      risk_weight_reputation := 0.2 }

/-- `.name` of the Python `OperationalMode` member. -/
def OperationalMode.pname : OperationalMode → String
  | .DEVELOPMENT => "DEVELOPMENT"
  | .PRODUCTION => "PRODUCTION"
  | .PARANOID => "PARANOID"
  | .FORENSIC => "FORENSIC"

/-- `.name` of the Python `PerformanceProfile` member. -/
def PerformanceProfile.pname : PerformanceProfile → String
  | .ECO => "ECO"
  | .BALANCED => "BALANCED"
  | .TURBO => "TURBO"

/-! ## engine.py — GovernanceEngine -/

/-- The fields of `intent_data` the engine reads, with Python truthiness
and `dict.get` defaults resolved:
  * `signature` carries only the truthiness of the field
    (`intent_data.get("signature")`);
  * `scope = ""` stands for a missing or falsy `scope` field;
  * a missing `id` is the string `"unknown"`, a missing `priority` is
    `"normal"`, missing numerics are `0`, missing flags are `False`. -/
structure Intent where
  id : String
  signature : Bool
  action : String
  requires_admin : Bool
  scope : String
  priority : String
  fuel_estimate : Int
  burst_count : Int
  off_hours : Bool
deriving DecidableEq, Repr

/-- The engine state an intent evaluation reads and writes:
the current policy snapshot, the cached `_last_qos`, the health of the
`ssai` circuit breaker (`circuit_breaker.is_healthy("ssai")`), the QoS
controller configuration, the policy hash, the reload counter, and the
audit chain represented by the list of its entries' event types. -/
structure EngineState where
  policy : RuntimePolicy
  last_qos : QoSAdjustment
  ssai_healthy : Bool
  qos_cfg : QoSConfig
  policy_hash : String
  reload_count : Nat
  audit_log : List String
deriving DecidableEq, Repr

/-- `GovernanceEngine._assess_semantic_risk` (without the
`record_success("ssai")` side effect, which cannot change the breaker
health: it is only reached when the breaker is not OPEN, and
`record_success` never moves a breaker to OPEN). -/
def assessSemanticRisk (intent : Intent) : Rat :=
  let risk : Rat := 0.0
  let risk := if ["delete", "drop", "kill", "override", "bypass"].contains
      intent.action.toLower then risk + 0.5 else risk
  let risk := if intent.requires_admin then risk + 0.2 else risk
  let risk := if intent.scope = "" then risk + 0.1 else risk
  min risk 1.0

/-- `GovernanceEngine._assess_behavioral_risk`. -/
def assessBehavioralRisk (intent : Intent) : Rat :=
  let risk : Rat := 0.0
  let risk := if intent.burst_count > 10 then risk + 0.4 else risk
  let risk := if intent.off_hours then risk + 0.2 else risk
  min risk 1.0

/-- Python `int(q)` on a float: truncation toward zero. -/
def pyIntOfRat (q : Rat) : Int :=
  if 0 ≤ q then q.floor else -((-q).floor)

/-- `GovernanceEngine._finalize`: recompute the confidence when it is
still zero on a terminal decision, then append the decision to the audit
chain (`audit.log_decision`). -/
def finalizeTrace (st : EngineState) (t : DecisionTrace) : DecisionTrace × EngineState :=
  let t :=
    if t.confidence_score = 0.0 ∧ t.decision ≠ "PENDING" then
      t.compute_confidence st.policy.risk_weight_semantic
        st.policy.risk_weight_behavioral st.policy.risk_weight_reputation 1.0
    else t
  (t, { st with audit_log := st.audit_log ++ ["decision"] })

/-- `GovernanceEngine.evaluate_intent`: the eleven-step pipeline.  Returns
the finalized trace and the updated engine state.  `now` stands for
`time.time()` at trace construction. -/
def evaluateIntent (st : EngineState) (now : Rat) (intent : Intent)
    (actor_reputation : Rat) (is_panic : Bool) : DecisionTrace × EngineState :=
  let trace := DecisionTrace.init intent.id now st.policy.mode.pname
    st.policy.security_posture.pname st.policy.performance_profile.pname
    actor_reputation st.last_qos.load_level.value (!st.last_qos.reasons.isEmpty)
  -- 1. Panic override
  if is_panic then
    finalizeTrace st (({ trace with decision := "REJECTED" }).add_reason
      "PANIC mode active - all intents blocked")
  -- 2. FORENSIC mode: read-only
  else if st.policy.mode = OperationalMode.FORENSIC then
    finalizeTrace st (({ trace with decision := "REJECTED" }).add_reason
      "System is in FORENSIC mode (read-only)")
  else
    -- 3. Circuit breaker: is the SSAI subsystem healthy?
    let trace :=
      if !st.ssai_healthy then
        { trace.add_reason "SSAI circuit breaker OPEN - using fallback scoring" with
            semantic_risk := 0.3 }
      else trace
    -- 4. QoS load shedding
    if st.last_qos.shed_low_priority ∧ intent.priority = "low" then
      finalizeTrace st (({ trace with decision := "REJECTED" }).add_reason
        "Load shedding: low-priority intent rejected during overload")
    else
      -- 5. Signature / security posture check.  `SECURITY_PRESETS` holds
      -- every posture, so the preset lookup never falls back to the policy.
      let sec_preset := SECURITY_PRESETS st.policy.security_posture
      let postureName := st.policy.security_posture.pname
      if sec_preset.require_signed_intents ∧ !intent.signature then
        finalizeTrace st (({ trace with decision := "REJECTED", risk_score := 1.0 }).add_reason
          ("Missing signature (required by " ++ postureName ++ " posture)"))
      -- 6. Reputation gate (posture-aware threshold)
      else if actor_reputation < sec_preset.min_reputation then
        finalizeTrace st (({ trace with decision := "REJECTED", risk_score := 0.9 }).add_reason
          ("Actor reputation " ++ toString actor_reputation ++ " below "
            ++ postureName ++ " minimum " ++ toString sec_preset.min_reputation))
      else
        -- 7. Semantic risk assessment
        let trace :=
          if st.ssai_healthy then { trace with semantic_risk := assessSemanticRisk intent }
          else trace
        -- 8. Behavioral risk
        let trace := { trace with behavioral_risk := assessBehavioralRisk intent }
        -- 9. Resource / fuel limit (QoS-adjusted)
        let effective_fuel := pyIntOfRat
          ((st.policy.max_fuel_per_intent : Rat) * st.last_qos.fuel_multiplier)
        if intent.fuel_estimate > effective_fuel then
          finalizeTrace st (({ trace with decision := "REJECTED" }).add_reason
            ("Fuel limit exceeded (" ++ toString intent.fuel_estimate ++ " > "
              ++ toString effective_fuel ++ ")"))
        else
          -- 10. Weighted confidence aggregation (quorum constant 1.0)
          let trace := trace.compute_confidence st.policy.risk_weight_semantic
            st.policy.risk_weight_behavioral st.policy.risk_weight_reputation 1.0
          -- 11. Decision based on confidence
          let trace :=
            if trace.confidence_score ≥ (0.7 : Rat) then { trace with decision := "APPROVED" }
            else if trace.confidence_score ≥ (0.4 : Rat) then
              ({ trace with decision := "QUARANTINED" }).add_reason
                ("Confidence " ++ toString trace.confidence_score ++ " - quarantined for review")
            else
              ({ trace with decision := "REJECTED" }).add_reason
                ("Confidence " ++ toString trace.confidence_score ++ " below threshold")
          finalizeTrace st trace

/-! ## engine.py — reload_policy

The YAML file is passed in already read and parsed: `ReadResult` is the
outcome of `os.path.exists` + `yaml.safe_load`, and `computeFileHash` is
abstracted into the `fileHash` argument (`compute_file_hash` never
throws: it catches `OSError` internally). -/

/-- A scalar YAML value as produced by `yaml.safe_load`.  Conversion
semantics of the Python builtins on these values:
`bool()` and `str()` never fail; `float()`/`int()` fail on
non-numeric strings (numeric strings, which Python would accept, are
modelled as failing too — no claim depends on which values convert,
only on the error path's behaviour). -/
inductive YamlVal
  | yStr (s : String)
  | yInt (n : Int)
  | yFloat (q : Rat)
  | yBool (b : Bool)
deriving DecidableEq, Repr

/-- Python `float(v)`, `None` on failure. -/
def pyFloat : YamlVal → Option Rat
  | .yStr _ => none
  | .yInt n => some (n : Rat)
  | .yFloat q => some q
  | .yBool b => some (if b then 1.0 else 0.0)

/-- Python `int(v)`, `None` on failure. -/
def pyInt : YamlVal → Option Int
  | .yStr _ => none
  | .yInt n => some n
  | .yFloat q => some (pyIntOfRat q)
  | .yBool b => some (if b then 1 else 0)

/-- Python `bool(v)` (truthiness; never fails). -/
def pyBool : YamlVal → Bool
  | .yStr s => s ≠ ""
  | .yInt n => n ≠ 0
  | .yFloat q => q ≠ 0
  | .yBool b => b

/-- Python `str(v)` (never fails). -/
def pyStr : YamlVal → String
  | .yStr s => s
  | .yInt n => toString n
  | .yFloat q => toString q
  | .yBool b => if b then "True" else "False"

/-- The YAML mapping: association list of keys to scalar values. -/
def ConfigMap := List (String × YamlVal)

/-- `data.get(key, default)` followed by `float()`. -/
def getFloat (m : ConfigMap) (key : String) (dflt : Rat) : Option Rat :=
  match List.lookup key m with
  | none => some dflt
  | some v => pyFloat v

/-- `data.get(key, default)` followed by `int()`. -/
def getInt (m : ConfigMap) (key : String) (dflt : Int) : Option Int :=
  match List.lookup key m with
  | none => some dflt
  | some v => pyInt v

/-- `data.get(key, default)` followed by `bool()`. -/
def getBool (m : ConfigMap) (key : String) (dflt : Bool) : Bool :=
  match List.lookup key m with
  | none => dflt
  | some v => pyBool v

/-- `data.get(key, default)` followed by `str()`. -/
def getStr (m : ConfigMap) (key : String) (dflt : String) : String :=
  match List.lookup key m with
  | none => dflt
  | some v => pyStr v

def modeFromName : String → Option OperationalMode
  | "DEVELOPMENT" => some OperationalMode.DEVELOPMENT
  | "PRODUCTION" => some OperationalMode.PRODUCTION
  | "PARANOID" => some OperationalMode.PARANOID
  | "FORENSIC" => some OperationalMode.FORENSIC
  | _ => none

def postureFromName : String → Option SecurityPosture
  | "OPEN" => some SecurityPosture.OPEN
  | "GUARDED" => some SecurityPosture.GUARDED
  | "HARDENED" => some SecurityPosture.HARDENED
  | "LOCKDOWN" => some SecurityPosture.LOCKDOWN
  | _ => none

def profileFromName : String → Option PerformanceProfile
  | "ECO" => some PerformanceProfile.ECO
  | "BALANCED" => some PerformanceProfile.BALANCED
  | "TURBO" => some PerformanceProfile.TURBO
  | _ => none

/-- `GovernanceEngine._parse_enum`: `enum_cls[str(raw).upper()]`, falling
back to the default on `KeyError`; a missing key yields the default's
`.value`, which round-trips to the default. -/
def parseEnum {α : Type} (fromName : String → Option α) (m : ConfigMap)
    (key : String) (dflt : α) : α :=
  match List.lookup key m with
  | none => dflt
  | some v => (fromName (pyStr v).toUpper).getD dflt

/-- The `RuntimePolicy(...)` construction inside `reload_policy`; `none`
models a conversion raising (caught by the outer `except Exception`). -/
def buildPolicy (m : ConfigMap) : Option RuntimePolicy := do
  let mode := parseEnum modeFromName m "mode" OperationalMode.PRODUCTION
  let security := parseEnum postureFromName m "security_posture" SecurityPosture.GUARDED
  let performance := parseEnum profileFromName m "performance_profile" PerformanceProfile.BALANCED
  let defaults := RuntimePolicy.defaultFor mode
  let cognitive_speed ← getFloat m "cognitive_speed" defaults.cognitive_speed
  let ssai_threshold ← getFloat m "ssai_threshold" defaults.ssai_threshold
  let ssai_depth := getStr m "ssai_depth" defaults.ssai_depth
  let quorum_frac ← getFloat m "quorum_ratio" defaults.quorum_frac
  let consensus_timeout_ms ← getInt m "consensus_timeout_ms" defaults.consensus_timeout_ms
  let max_fuel_per_intent ← getInt m "max_fuel_per_intent" defaults.max_fuel_per_intent
  let p2p_rate_limit ← getInt m "p2p_rate_limit" defaults.p2p_rate_limit
  let require_signed_intents := getBool m "require_signed_intents" defaults.require_signed_intents
  let sandbox_strictness := getStr m "sandbox_strictness" defaults.sandbox_strictness
  let min_reputation ← getFloat m "min_reputation" defaults.min_reputation
  let max_parallel_intents ← getInt m "max_parallel_intents" defaults.max_parallel_intents
  let queue_backpressure_threshold ←
    getInt m "queue_backpressure_threshold" defaults.queue_backpressure_threshold
  let adaptive_throttling := getBool m "adaptive_throttling" defaults.adaptive_throttling
  let allow_manual_override := getBool m "allow_manual_override" defaults.allow_manual_override
  let risk_weight_semantic ← getFloat m "risk_weight_semantic" defaults.risk_weight_semantic
  let risk_weight_behavioral ← getFloat m "risk_weight_behavioral" defaults.risk_weight_behavioral
  let risk_weight_reputation ← getFloat m "risk_weight_reputation" defaults.risk_weight_reputation
  pure
    { mode := mode
      security_posture := security
      performance_profile := performance
      cognitive_speed := cognitive_speed
      ssai_threshold := ssai_threshold
      ssai_depth := ssai_depth
      quorum_frac := quorum_frac
      consensus_timeout_ms := consensus_timeout_ms
      max_fuel_per_intent := max_fuel_per_intent
      p2p_rate_limit := p2p_rate_limit
      require_signed_intents := require_signed_intents
      sandbox_strictness := sandbox_strictness
      min_reputation := min_reputation
      max_parallel_intents := max_parallel_intents
      queue_backpressure_threshold := queue_backpressure_threshold
      adaptive_throttling := adaptive_throttling
      allow_manual_override := allow_manual_override
      risk_weight_semantic := risk_weight_semantic
      risk_weight_behavioral := risk_weight_behavioral
      risk_weight_reputation := risk_weight_reputation }

/-- What reading + parsing the config file produced:
`missing` = `os.path.exists` false; `yamlError` = `yaml.safe_load`
raised `YAMLError`; `notMapping` = the file parsed but not to a dict;
`mapping m` = a dict with scalar values. -/
inductive ReadResult
  | missing
  | yamlError
  | notMapping
  | mapping (m : List (String × YamlVal))

/-- `GovernanceEngine.reload_policy`.  Total (the source catches every
exception and returns `False`); on success it swaps the policy, pushes
the two QoS knobs into the controller, stores the new file hash, bumps
the reload counter and emits a `policy_reload` audit entry. -/
def reloadPolicy (st : EngineState) (r : ReadResult) (fileHash : String) :
    Bool × EngineState :=
  match r with
  | ReadResult.missing => (false, st)
  | ReadResult.yamlError => (false, st)
  | ReadResult.notMapping => (false, st)
  | ReadResult.mapping m =>
    match buildPolicy m with
    | none => (false, st)
    | some p =>
      (true,
        { st with
            policy := p
            qos_cfg := { st.qos_cfg with
                backpressure_threshold := p.queue_backpressure_threshold
                adaptive_throttling := p.adaptive_throttling }
            policy_hash := fileHash
            reload_count := st.reload_count + 1
            audit_log := st.audit_log ++ ["policy_reload"] })

/-! ## feedback.py — FeedbackLoop -/

structure FeedbackConfig where
  cpu_overload_threshold : Rat
  cpu_idle_threshold : Rat
  latency_overload_ms : Rat
  latency_healthy_ms : Rat
  rejection_rate_lockdown : Rat
  rejection_rate_recovery : Rat
  cooldown_s : Rat
  min_observations : Nat
  observation_window_s : Rat
deriving DecidableEq, Repr

/-- The dataclass defaults of `FeedbackConfig`. -/
def FeedbackConfig.initial : FeedbackConfig :=
  { cpu_overload_threshold := 0.85
    cpu_idle_threshold := 0.20
    latency_overload_ms := 2000.0
    latency_healthy_ms := 500.0
    rejection_rate_lockdown := 0.40
    rejection_rate_recovery := 0.05
    cooldown_s := 60.0
    min_observations := 20
    observation_window_s := 300.0 }

structure FeedbackState where
  last_adaptation_time : Rat
  total_adaptations : Nat
  last_action : String
  current_avg_latency_ms : Option Rat
  current_rejection_rate : Option Rat
  current_cpu_usage : Option Rat
  in_cooldown : Bool
deriving DecidableEq, Repr

def FeedbackState.initial : FeedbackState :=
  { last_adaptation_time := 0.0
    total_adaptations := 0
    last_action := "none"
    current_avg_latency_ms := none
    current_rejection_rate := none
    current_cpu_usage := none
    in_cooldown := false }

structure FeedbackAction where
  name : String
  performance : Option PerformanceProfile
  security : Option SecurityPosture
  reason : String
deriving DecidableEq, Repr

/-- `FeedbackLoop._evaluate_performance`.  The nested
`if cond: if current != ECO: return` of the source is flattened to a
conjunction: when the outer test holds but the inner one fails, both
forms fall through to the upshift check. -/
def evaluatePerformance (cfg : FeedbackConfig) (current : PerformanceProfile)
    (cpu_usage avg_latency : Rat) : Option FeedbackAction :=
  if (cpu_usage > cfg.cpu_overload_threshold ∨ avg_latency > cfg.latency_overload_ms)
      ∧ current ≠ PerformanceProfile.ECO then
    some { name := "performance_downshift"
           performance := some PerformanceProfile.ECO
           security := none
           reason := "System overload detected - downshifting to ECO" }
  else if cpu_usage < cfg.cpu_idle_threshold ∧ avg_latency < cfg.latency_healthy_ms
      ∧ current = PerformanceProfile.ECO then
    some { name := "performance_upshift"
           performance := some PerformanceProfile.BALANCED
           security := none
           reason := "System idle - upshifting to BALANCED" }
  else none

/-- `FeedbackLoop._evaluate_security` (same flattening as above). -/
def evaluateSecurity (cfg : FeedbackConfig) (current : SecurityPosture)
    (rejection_rate : Rat) : Option FeedbackAction :=
  if rejection_rate > cfg.rejection_rate_lockdown
      ∧ current ≠ SecurityPosture.LOCKDOWN then
    some { name := "security_lockdown"
           performance := none
           security := some SecurityPosture.LOCKDOWN
           reason := "High rejection rate - initiating LOCKDOWN" }
  else if rejection_rate < cfg.rejection_rate_recovery
      ∧ current = SecurityPosture.LOCKDOWN then
    some { name := "security_recovery"
           performance := none
           security := some SecurityPosture.GUARDED
           reason := "Rejection rate normalized - reverting to GUARDED" }
  else none

/-- `FeedbackLoop._make_action`'s state update (the `time.time()` it
stamps is modelled as the same `now` the surrounding `evaluate` read). -/
def makeActionState (st : FeedbackState) (name : String) (now : Rat) : FeedbackState :=
  { st with
      last_adaptation_time := now
      total_adaptations := st.total_adaptations + 1
      last_action := name }

/-- The values of an observation buffer that fall inside the window
(`[v for ts, v in buf if ts >= cutoff]`). -/
def windowVals (buf : List (Rat × Rat)) (cutoff : Rat) : List Rat :=
  (buf.filter (fun p => decide (p.1 ≥ cutoff))).map (fun p => p.2)

/-- The windowed rejection rate `evaluate` computes (rational division;
the source raises `ZeroDivisionError` on an empty window, which is
unreachable in `evaluate` when the two buffers are kept in lockstep). -/
def rejectionRateAt (cfg : FeedbackConfig) (rejBuf : List (Rat × Rat)) (now : Rat) : Rat :=
  let vals := windowVals rejBuf (now - cfg.observation_window_s)
  vals.sum / (vals.length : Rat)

/-- `FeedbackLoop.evaluate`.  The observation buffers are passed
explicitly; returns the proposed action (or `none`) and the updated
`FeedbackState`. -/
def feedbackEvaluate (cfg : FeedbackConfig) (st : FeedbackState)
    (latBuf rejBuf : List (Rat × Rat)) (now : Rat)
    (current_performance : PerformanceProfile) (current_security : SecurityPosture)
    (cpu_usage : Rat) : Option FeedbackAction × FeedbackState :=
  let elapsed := now - st.last_adaptation_time
  if elapsed < cfg.cooldown_s ∧ st.last_adaptation_time > 0 then
    (none, { st with in_cooldown := true })
  else
    let st := { st with in_cooldown := false }
    let cutoff := now - cfg.observation_window_s
    let recent_latencies := windowVals latBuf cutoff
    let recent_rejections := windowVals rejBuf cutoff
    if recent_latencies.length < cfg.min_observations then (none, st)
    else
      let avg_latency := recent_latencies.sum / (recent_latencies.length : Rat)
      let rejection_rate := recent_rejections.sum / (recent_rejections.length : Rat)
      let st := { st with
          current_avg_latency_ms := some avg_latency
          current_rejection_rate := some rejection_rate
          current_cpu_usage := some cpu_usage }
      match evaluatePerformance cfg current_performance cpu_usage avg_latency with
      | some a => (some a, makeActionState st a.name now)
      | none =>
        match evaluateSecurity cfg current_security rejection_rate with
        | some a => (some a, makeActionState st a.name now)
        | none => (none, st)

/-! ## audit.py — AuditChain

The chain is hash-linked with
`entry_hash = sha256(json.dumps({seq, ts, type, data, prev}, sort_keys=True))`.
The composition of the canonical key-sorted JSON encoding and SHA-256 is
abstracted into a function `H` from entry contents to hex strings; the
structural behaviour of `verify_chain` is proved for every `H`, and the
tamper-detection direction assumes `H` has no collision between the
original and the mutated content (the second-preimage resistance
SHA-256 is trusted for). -/

/-- One audit entry.  `data` (an arbitrary JSON-serialisable dict in the
source) is abstracted to a type parameter. -/
structure AuditEntry (Dt : Type) where
  sequence : Nat
  timestamp : Rat
  event_type : String
  data : Dt
  prev_hash : String
  entry_hash : String
deriving DecidableEq, Repr

/-- The five fields `AuditEntry.compute_hash` feeds to the canonical
encoding, under their JSON keys. -/
structure EntryContent (Dt : Type) where
  seq : Nat
  ts : Rat
  etype : String
  data : Dt
  prev : String
deriving DecidableEq, Repr

def contentOf {Dt : Type} (e : AuditEntry Dt) : EntryContent Dt :=
  ⟨e.sequence, e.timestamp, e.event_type, e.data, e.prev_hash⟩

/-- `AuditChain.GENESIS_HASH = "0" * 64`. -/
def GENESIS_HASH : String :=
  "0000000000000000000000000000000000000000000000000000000000000000"

/-- The loop body of `AuditChain.verify_chain`: walk the chain carrying
the expected previous hash and the running index; at each entry first
recompute the self-hash, then check the link.  (At index 0 the carried
hash is `GENESIS_HASH`, which the caller has already checked, so the
extra link test there cannot fail.) -/
def verifyLinked {Dt : Type} [DecidableEq Dt] (H : EntryContent Dt → String) :
    String → List (AuditEntry Dt) → Nat → Bool × Option Nat
  | _, [], _ => (true, none)
  | ph, e :: rest, i =>
    if e.entry_hash ≠ H (contentOf e) then (false, some i)
    else if e.prev_hash ≠ ph then (false, some i)
    else verifyLinked H e.entry_hash rest (i + 1)

/-- `AuditChain.verify_chain`. -/
def verifyChain {Dt : Type} [DecidableEq Dt] (H : EntryContent Dt → String)
    (chain : List (AuditEntry Dt)) : Bool × Option Nat :=
  match chain with
  | [] => (true, none)
  | e0 :: _ =>
    if e0.prev_hash ≠ GENESIS_HASH then (false, some 0)
    else verifyLinked H GENESIS_HASH chain 0

/-- `AuditChain.append` on the in-memory state `(chain, last_hash, seq)`
(persistence failures do not block the in-memory advance). -/
def auditAppend {Dt : Type} (H : EntryContent Dt → String)
    (chain : List (AuditEntry Dt)) (last_hash : String) (seq : Nat)
    (now : Rat) (event_type : String) (data : Dt) :
    List (AuditEntry Dt) × String × Nat :=
  let content : EntryContent Dt := ⟨seq, now, event_type, data, last_hash⟩
  let entry : AuditEntry Dt :=
    ⟨seq, now, event_type, data, last_hash, H content⟩
  (chain ++ [entry], entry.entry_hash, seq + 1)

/-- Spec-side predicate, from the claim's words: every entry in `l` has a
correct self-hash and its `prev_hash` links to the hash carried from the
left (`ph` to start, then each predecessor's `entry_hash`). -/
def linkedFrom {Dt : Type} (H : EntryContent Dt → String) :
    String → List (AuditEntry Dt) → Prop
  | _, [] => True
  | ph, e :: rest =>
    e.entry_hash = H (contentOf e) ∧ e.prev_hash = ph ∧ linkedFrom H e.entry_hash rest

instance {Dt : Type} [DecidableEq Dt] (H : EntryContent Dt → String) (ph : String)
    (l : List (AuditEntry Dt)) : Decidable (linkedFrom H ph l) := by
  induction l generalizing ph with
  | nil => exact isTrue trivial
  | cons e rest ih => exact @instDecidableAnd _ _ _ (@instDecidableAnd _ _ _ (ih _))

/-- Spec-side predicate, from the claim's words: entry 0's `prev_hash` is
the genesis hash, every entry's stored `entry_hash` is the hash of its
content, and every later entry's `prev_hash` is its predecessor's
`entry_hash`. -/
def wellFormedChain {Dt : Type} (H : EntryContent Dt → String)
    (chain : List (AuditEntry Dt)) : Prop :=
  (∀ h0 : 0 < chain.length, (chain.get ⟨0, h0⟩).prev_hash = GENESIS_HASH) ∧
  (∀ i, ∀ hi : i < chain.length,
    (chain.get ⟨i, hi⟩).entry_hash = H (contentOf (chain.get ⟨i, hi⟩))) ∧
  (∀ i, ∀ hi : i + 1 < chain.length,
    (chain.get ⟨i + 1, hi⟩).prev_hash = (chain.get ⟨i, Nat.lt_of_succ_lt hi⟩).entry_hash)

/-! ## Helper lemmas and shared concrete inputs -/

theorem compute_confidence_decision (t : DecisionTrace) (a b c d : Rat) :
    (t.compute_confidence a b c d).decision = t.decision := rfl

theorem add_reason_decision (t : DecisionTrace) (r : String) :
    (t.add_reason r).decision = t.decision := rfl

theorem finalizeTrace_decision (st : EngineState) (t : DecisionTrace) :
    (finalizeTrace st t).1.decision = t.decision := by
  unfold finalizeTrace
  split
  · exact compute_confidence_decision ..
  · rfl

/-- An engine freshly constructed with no config file: PRODUCTION default
policy (posture GUARDED), identity QoS, healthy breakers, empty audit
chain. -/
def productionEngineState : EngineState :=
  { policy := RuntimePolicy.defaultFor OperationalMode.PRODUCTION
    last_qos := QoSAdjustment.initial
    ssai_healthy := true
    qos_cfg := QoSConfig.initial
    policy_hash := ""
    reload_count := 0
    audit_log := [] }

/-- The literal intent of spec scenario 1, carrying no signature. -/
def unsignedIntent : Intent :=
  { id := "i1", signature := false, action := "read", requires_admin := false
    scope := "/", priority := "normal", fuel_estimate := 1000, burst_count := 0
    off_hours := false }

/-! ## C1 — unsigned intent in GUARDED -/

set_option maxHeartbeats 1000000 in
/-- C1, counterexample: on the literal scenario (GUARDED posture, intent
`i1` without a signature, reputation 0.9, no panic) the returned trace is
REJECTED but its `risk_score` is 0.02, not 1.0: `_finalize` sees
`confidence_score == 0` on a terminal decision and calls
`compute_confidence`, which overwrites the 1.0 the signature gate had
stored with `clamp(0.5*0 + 0.3*0 + 0.2*(1-0.9)) = 0.02`. -/
theorem unsigned_guarded_risk_not_one :
    ((evaluateIntent productionEngineState 0 unsignedIntent 0.9 false).1).decision
        = "REJECTED"
    ∧ ((evaluateIntent productionEngineState 0 unsignedIntent 0.9 false).1).risk_score
        = 0.02
    ∧ ((evaluateIntent productionEngineState 0 unsignedIntent 0.9 false).1).risk_score
        ≠ 1.0 := by
  simp only [evaluateIntent, DecisionTrace.init, productionEngineState,
    RuntimePolicy.defaultFor, QoSAdjustment.initial, unsignedIntent, SECURITY_PRESETS,
    SecurityPosture.pname, OperationalMode.pname, PerformanceProfile.pname,
    LoadLevel.value, QoSConfig.initial, finalizeTrace, DecisionTrace.add_reason,
    DecisionTrace.compute_confidence]
  norm_num
  simp

set_option maxHeartbeats 1000000 in
/-- C1, amended: the scenario returns REJECTED, the reasons mention the
missing signature, and the audit chain grows by exactly one entry — but
the final `risk_score` is 0.02 (the 1.0 stored at the signature gate is
overwritten when `_finalize` recomputes the confidence from the
default-zero risk factors). -/
theorem unsigned_guarded_scenario :
    ((evaluateIntent productionEngineState 0 unsignedIntent 0.9 false).1).decision
        = "REJECTED"
    ∧ ((evaluateIntent productionEngineState 0 unsignedIntent 0.9 false).1).risk_score
        = 0.02
    ∧ "Missing signature (required by GUARDED posture)"
        ∈ ((evaluateIntent productionEngineState 0 unsignedIntent 0.9 false).1).reasons
    ∧ ((evaluateIntent productionEngineState 0 unsignedIntent 0.9 false).2).audit_log.length
        = productionEngineState.audit_log.length + 1 := by
  simp only [evaluateIntent, DecisionTrace.init, productionEngineState,
    RuntimePolicy.defaultFor, QoSAdjustment.initial, unsignedIntent, SECURITY_PRESETS,
    SecurityPosture.pname, OperationalMode.pname, PerformanceProfile.pname,
    LoadLevel.value, QoSConfig.initial, finalizeTrace, DecisionTrace.add_reason,
    DecisionTrace.compute_confidence]
  norm_num
  simp

/-! ## C3 — panic or FORENSIC always rejects -/

/-- C3: for every engine state and every intent, if `is_panic` is true or
the current policy mode is FORENSIC, `evaluate_intent` returns a REJECTED
trace, regardless of every other field. -/
theorem panic_or_forensic_rejected (st : EngineState) (now : Rat) (intent : Intent)
    (actor_reputation : Rat) (is_panic : Bool)
    (h : is_panic = true ∨ st.policy.mode = OperationalMode.FORENSIC) :
    (evaluateIntent st now intent actor_reputation is_panic).1.decision = "REJECTED" := by
  unfold evaluateIntent
  cases is_panic with
  | true =>
    simpa [add_reason_decision] using finalizeTrace_decision st _
  | false =>
    have hm : st.policy.mode = OperationalMode.FORENSIC := by
      rcases h with h | h
      · cases h
      · exact h
    simpa [hm, add_reason_decision] using finalizeTrace_decision st _

/-- C3 witness: the concrete panic evaluation of scenario intent `i1` is
REJECTED. -/
theorem panic_rejected_witness :
    (evaluateIntent productionEngineState 0 unsignedIntent 0.9 true).1.decision
      = "REJECTED" :=
  panic_or_forensic_rejected productionEngineState 0 unsignedIntent 0.9 true (Or.inl rfl)

/-! ## C5 — compute_confidence equations -/

/-- Spec-side `clamp(x, 0, 1)` (§4.3). -/
def clampUnit (x : Rat) : Rat := min (max x 0) 1

/-- Spec-side population variance, the square of
`stddev_population(xs)` (§4.3). -/
def popVariance (xs : List Rat) : Rat :=
  (xs.map (fun x => (x - xs.sum / (xs.length : Rat)) ^ 2)).sum / (xs.length : Rat)

/-- C5: `compute_confidence(w_s, w_b, w_r, q)` sets
`risk_score = clamp(w_s*semantic + w_b*behavioral + w_r*(1-reputation), 0, 1)`,
`confidence_score = (1 - risk_score) * q`, the uncertainty equal to the
population standard deviation of the three risk factors (stated on the
squares, and on the real square roots), and the recommended action by the
0.8 / 0.6 / 0.4 confidence cascade. -/
theorem compute_confidence_spec (t : DecisionTrace) (ws wb wr q : Rat) :
    ((t.compute_confidence ws wb wr q).risk_score
        = clampUnit (ws * t.semantic_risk + wb * t.behavioral_risk
            + wr * (1 - t.actor_reputation)))
    ∧ ((t.compute_confidence ws wb wr q).confidence_score
        = (1 - (t.compute_confidence ws wb wr q).risk_score) * q)
    ∧ ((t.compute_confidence ws wb wr q).uncertaintySq
        = popVariance [t.semantic_risk, t.behavioral_risk, 1 - t.actor_reputation])
    ∧ (Real.sqrt ((t.compute_confidence ws wb wr q).uncertaintySq : Real)
        = Real.sqrt ((popVariance
            [t.semantic_risk, t.behavioral_risk, 1 - t.actor_reputation] : Rat) : Real))
    ∧ ((t.compute_confidence ws wb wr q).recommended_action
        = if (t.compute_confidence ws wb wr q).confidence_score ≥ 0.8 then "safe_execution"
          else if (t.compute_confidence ws wb wr q).confidence_score ≥ 0.6 then "monitor"
          else if (t.compute_confidence ws wb wr q).confidence_score ≥ 0.4 then "manual_review"
          else "block") := by
  simp only [DecisionTrace.compute_confidence, clampUnit, popVariance]
  norm_num

/-! ## C7 — reload_policy error atomicity -/

/-- C7: `reload_policy` is total (never throws), and on every error path
— missing file, YAML parse error, non-mapping document, or a failing
field conversion — it returns false with the engine state (in particular
the effective policy) unchanged. -/
theorem reload_error_keeps_policy (st : EngineState) (r : ReadResult) (fileHash : String)
    (h : r = ReadResult.missing ∨ r = ReadResult.yamlError ∨ r = ReadResult.notMapping
      ∨ ∃ m, r = ReadResult.mapping m ∧ buildPolicy m = none) :
    reloadPolicy st r fileHash = (false, st) := by
  rcases h with h | h | h | ⟨m, hm, hb⟩
  · subst h; rfl
  · subst h; rfl
  · subst h; rfl
  · subst hm
    simp [reloadPolicy, hb]

/-- C7 witness: reloading with a missing config file leaves the fresh
PRODUCTION engine state untouched and reports failure. -/
theorem reload_missing_witness :
    reloadPolicy productionEngineState ReadResult.missing ""
      = (false, productionEngineState) :=
  reload_error_keeps_policy productionEngineState ReadResult.missing "" (Or.inl rfl)

/-! ## C9 — adaptive_throttling has no effect on the QoS output -/

/-- C9: the `adaptive_throttling` flag does not influence
`AdaptiveQoSController.evaluate`: for every metrics snapshot and every
history, flipping the flag yields the identical adjustment (multipliers,
shedding, load level, reasons) and the identical new history; the source
reads the flag only to gate a warning log line. -/
theorem qos_adaptive_flag_no_effect (cfg : QoSConfig) (hist : List SystemMetrics)
    (m : SystemMetrics) (b : Bool) :
    qosEvaluate { cfg with adaptive_throttling := b } hist m = qosEvaluate cfg hist m := by
  cases cfg
  rfl

/-! ## C10 — panic with perfect reputation still reports full confidence -/

/-- C10: for every engine state and intent, evaluating with
`is_panic = true` and `actor_reputation = 1.0` returns a REJECTED trace
whose `confidence_score` is nevertheless 1.0 with
`recommended_action = "safe_execution"`: `_finalize` recomputes the
confidence from the default-zero risk factors whenever
`confidence_score` is 0 on a terminal decision. -/
theorem panic_full_confidence (st : EngineState) (now : Rat) (intent : Intent) :
    ((evaluateIntent st now intent 1.0 true).1.decision = "REJECTED")
    ∧ ((evaluateIntent st now intent 1.0 true).1.confidence_score = 1.0)
    ∧ ((evaluateIntent st now intent 1.0 true).1.recommended_action
        = "safe_execution") := by
  simp only [evaluateIntent, DecisionTrace.init, finalizeTrace,
    DecisionTrace.add_reason, DecisionTrace.compute_confidence]
  norm_num
  simp

/-! ## C4 — circuit breaker recovery protocol -/

/-- C4: once OPEN, `allow_request` returns false (and changes nothing)
while less than `recovery_timeout_s` has elapsed since
`last_state_change`; once the timeout has elapsed the call returns true
and moves the breaker to HALF_OPEN with `success_count = 0` (the probe);
with `half_open_max_probes = 1`, HALF_OPEN allows a request exactly while
`success_count < 1` and the probe's recorded success closes the breaker;
a recorded failure while HALF_OPEN returns it to OPEN with
`last_state_change` updated to the failure time and `success_count`
reset to 0. -/
theorem breaker_recovery_protocol (cfg : BreakerConfig) (b : BreakerStatus) (now : Rat) :
    (b.state = BreakerState.OPEN → now - b.last_state_change < cfg.recovery_timeout_s →
        allowRequest cfg b now = (false, b))
    ∧ (b.state = BreakerState.OPEN → cfg.recovery_timeout_s ≤ now - b.last_state_change →
        allowRequest cfg b now = (true, breakerTransition b BreakerState.HALF_OPEN now))
    ∧ (cfg.half_open_max_probes = 1 → b.state = BreakerState.HALF_OPEN →
        (allowRequest cfg b now).1 = decide (b.success_count < 1))
    ∧ (cfg.half_open_max_probes = 1 → b.state = BreakerState.HALF_OPEN →
        (recordSuccess cfg b now).state = BreakerState.CLOSED)
    ∧ (b.state = BreakerState.HALF_OPEN →
        (recordFailure cfg b now).state = BreakerState.OPEN
        ∧ (recordFailure cfg b now).last_state_change = now
        ∧ (recordFailure cfg b now).success_count = 0) := by
  refine ⟨?_, ?_, ?_, ?_, ?_⟩
  · intro hs hlt
    simp [allowRequest, hs, not_le.mpr hlt]
  · intro hs hge
    simp [allowRequest, hs, hge]
  · intro hm hs
    simp [allowRequest, hs, hm]
  · intro hm hs
    simp [recordSuccess, hs, hm, breakerTransition]
  · intro hs
    simp [recordFailure, hs, breakerTransition]

/-- A breaker that tripped OPEN at time 0. -/
def openBreakerW : BreakerStatus :=
  { name := "ssai", state := BreakerState.OPEN, failure_count := 5, success_count := 0
    last_failure_time := 0, last_state_change := 0, total_trips := 1 }

/-- The same breaker probing in HALF_OPEN. -/
def halfOpenBreakerW : BreakerStatus :=
  { openBreakerW with state := BreakerState.HALF_OPEN }

/-- C4 witness: with the default 30 s recovery timeout, the OPEN breaker
blocks at t = 10, probes at t = 30, and a failed probe at t = 40 reopens
it with the timestamp updated and the success counter cleared. -/
theorem breaker_recovery_witness :
    allowRequest BreakerConfig.initial openBreakerW 10 = (false, openBreakerW)
    ∧ allowRequest BreakerConfig.initial openBreakerW 30
        = (true, breakerTransition openBreakerW BreakerState.HALF_OPEN 30)
    ∧ ((recordFailure BreakerConfig.initial halfOpenBreakerW 40).state = BreakerState.OPEN
        ∧ (recordFailure BreakerConfig.initial halfOpenBreakerW 40).last_state_change = 40
        ∧ (recordFailure BreakerConfig.initial halfOpenBreakerW 40).success_count = 0) :=
  ⟨(breaker_recovery_protocol BreakerConfig.initial openBreakerW 10).1 rfl
      (by norm_num [openBreakerW, BreakerConfig.initial]),
   (breaker_recovery_protocol BreakerConfig.initial openBreakerW 30).2.1 rfl
      (by norm_num [openBreakerW, BreakerConfig.initial]),
   (breaker_recovery_protocol BreakerConfig.initial halfOpenBreakerW 40).2.2.2.2 rfl⟩

/-! ## C6 — QoS multipliers in (0, 1], additive-min -/

/-- All three multipliers of an adjustment lie in the half-open
interval (0, 1]. -/
def multipliersInUnit (a : QoSAdjustment) : Prop :=
  (0 < a.speed_multiplier ∧ a.speed_multiplier ≤ 1)
  ∧ (0 < a.fuel_multiplier ∧ a.fuel_multiplier ≤ 1)
  ∧ (0 < a.rate_limit_multiplier ∧ a.rate_limit_multiplier ≤ 1)

/-- `f` never raises any of the three multipliers. -/
def lowersMultipliers (f : QoSAdjustment → QoSAdjustment) : Prop :=
  ∀ a : QoSAdjustment,
    (f a).speed_multiplier ≤ a.speed_multiplier
    ∧ (f a).fuel_multiplier ≤ a.fuel_multiplier
    ∧ (f a).rate_limit_multiplier ≤ a.rate_limit_multiplier

theorem qosRuleCpu_preserves (cfg : QoSConfig) (m : SystemMetrics) (a : QoSAdjustment)
    (h : multipliersInUnit a) : multipliersInUnit (qosRuleCpu cfg m a) := by
  obtain ⟨⟨h1, h2⟩, ⟨h3, h4⟩, h5⟩ := h
  unfold qosRuleCpu
  split
  · exact ⟨⟨lt_min h1 (by norm_num), le_trans (min_le_left _ _) h2⟩,
      ⟨lt_min h3 (by norm_num), le_trans (min_le_left _ _) h4⟩, h5⟩
  · exact ⟨⟨h1, h2⟩, ⟨h3, h4⟩, h5⟩

theorem qosRuleMemory_preserves (cfg : QoSConfig) (m : SystemMetrics) (a : QoSAdjustment)
    (h : multipliersInUnit a) : multipliersInUnit (qosRuleMemory cfg m a) := by
  obtain ⟨⟨h1, h2⟩, ⟨h3, h4⟩, h5⟩ := h
  unfold qosRuleMemory
  split
  · exact ⟨⟨h1, h2⟩,
      ⟨lt_min h3 (by norm_num), le_trans (min_le_left _ _) h4⟩, h5⟩
  · exact ⟨⟨h1, h2⟩, ⟨h3, h4⟩, h5⟩

theorem qosRuleQueue_preserves (cfg : QoSConfig) (m : SystemMetrics) (a : QoSAdjustment)
    (hbt : 0 < cfg.backpressure_threshold)
    (h : multipliersInUnit a) : multipliersInUnit (qosRuleQueue cfg m a) := by
  obtain ⟨⟨h1, h2⟩, ⟨h3, h4⟩, ⟨h5, h6⟩⟩ := h
  unfold qosRuleQueue
  split
  · rename_i hq
    have hd : (0 : Rat) < (m.queue_depth : Rat) := by
      exact_mod_cast lt_trans hbt hq
    have ht : (0 : Rat) < (cfg.backpressure_threshold : Rat) := by exact_mod_cast hbt
    have hratio : (0 : Rat) < (m.queue_depth : Rat) / (cfg.backpressure_threshold : Rat) :=
      div_pos hd ht
    exact ⟨⟨h1, h2⟩, ⟨h3, h4⟩,
      ⟨lt_min h5 (by positivity), le_trans (min_le_left _ _) h6⟩⟩
  · exact ⟨⟨h1, h2⟩, ⟨h3, h4⟩, ⟨h5, h6⟩⟩

theorem qosRuleLatency_preserves (cfg : QoSConfig) (m : SystemMetrics) (a : QoSAdjustment)
    (hlt : 0 < cfg.latency_threshold_ms)
    (h : multipliersInUnit a) : multipliersInUnit (qosRuleLatency cfg m a) := by
  obtain ⟨⟨h1, h2⟩, ⟨h3, h4⟩, h5⟩ := h
  unfold qosRuleLatency
  split
  · rename_i hl
    have hlat : (0 : Rat) < m.avg_latency_ms := lt_trans hlt hl
    exact ⟨⟨lt_min h1 (div_pos hlt hlat), le_trans (min_le_left _ _) h2⟩,
      ⟨h3, h4⟩, h5⟩
  · exact ⟨⟨h1, h2⟩, ⟨h3, h4⟩, h5⟩

theorem qosRuleLoss_preserves (cfg : QoSConfig) (m : SystemMetrics) (a : QoSAdjustment)
    (h : multipliersInUnit a) : multipliersInUnit (qosRuleLoss cfg m a) := by
  obtain ⟨⟨h1, h2⟩, ⟨h3, h4⟩, ⟨h5, h6⟩⟩ := h
  unfold qosRuleLoss
  split
  · exact ⟨⟨h1, h2⟩, ⟨h3, h4⟩,
      ⟨lt_min h5 (by norm_num), le_trans (min_le_left _ _) h6⟩⟩
  · exact ⟨⟨h1, h2⟩, ⟨h3, h4⟩, ⟨h5, h6⟩⟩

/-- C6: for every metrics snapshot (under the structural sanity of the
controller configuration — positive backpressure and latency thresholds,
as in the shipped defaults), the returned adjustment's three multipliers
lie in (0, 1]; and evaluation is additive-min: each of the five rules can
only lower each multiplier, never raise it. -/
theorem qos_multiplier_invariants (cfg : QoSConfig) (hist : List SystemMetrics)
    (m : SystemMetrics) (hbt : 0 < cfg.backpressure_threshold)
    (hlt : 0 < cfg.latency_threshold_ms) :
    multipliersInUnit (qosEvaluate cfg hist m).1
    ∧ lowersMultipliers (qosRuleCpu cfg m)
    ∧ lowersMultipliers (qosRuleMemory cfg m)
    ∧ lowersMultipliers (qosRuleQueue cfg m)
    ∧ lowersMultipliers (qosRuleLatency cfg m)
    ∧ lowersMultipliers (qosRuleLoss cfg m) := by
  constructor
  · have h0 : multipliersInUnit QoSAdjustment.initial := by
      constructor
      · constructor <;> norm_num [QoSAdjustment.initial]
      constructor
      · constructor <;> norm_num [QoSAdjustment.initial]
      · constructor <;> norm_num [QoSAdjustment.initial]
    have hchain := qosRuleLoss_preserves cfg m _
      (qosRuleLatency_preserves cfg m _ hlt
        (qosRuleQueue_preserves cfg m _ hbt
          (qosRuleMemory_preserves cfg m _
            (qosRuleCpu_preserves cfg m _ h0))))
    exact hchain
  refine ⟨?_, ?_, ?_, ?_, ?_⟩ <;> intro a
  · unfold qosRuleCpu
    split
    · exact ⟨min_le_left _ _, min_le_left _ _, le_refl _⟩
    · exact ⟨le_refl _, le_refl _, le_refl _⟩
  · unfold qosRuleMemory
    split
    · exact ⟨le_refl _, min_le_left _ _, le_refl _⟩
    · exact ⟨le_refl _, le_refl _, le_refl _⟩
  · unfold qosRuleQueue
    split
    · exact ⟨le_refl _, le_refl _, min_le_left _ _⟩
    · exact ⟨le_refl _, le_refl _, le_refl _⟩
  · unfold qosRuleLatency
    split
    · exact ⟨min_le_left _ _, le_refl _, le_refl _⟩
    · exact ⟨le_refl _, le_refl _, le_refl _⟩
  · unfold qosRuleLoss
    split
    · exact ⟨le_refl _, le_refl _, min_le_left _ _⟩
    · exact ⟨le_refl _, le_refl _, le_refl _⟩

/-- The overload snapshot of spec scenario 4. -/
def overloadMetricsW : SystemMetrics :=
  { cpu_usage := 0.9, memory_usage := 0.5, queue_depth := 250, avg_latency_ms := 100
    error_rate := 0, p2p_packet_loss := 0, timestamp := 0 }

/-- C6 witness: the default controller on the scenario-4 overload
snapshot keeps all multipliers in (0, 1]. -/
theorem qos_multiplier_witness :
    multipliersInUnit (qosEvaluate QoSConfig.initial [] overloadMetricsW).1 :=
  (qos_multiplier_invariants QoSConfig.initial [] overloadMetricsW
    (by norm_num [QoSConfig.initial]) (by norm_num [QoSConfig.initial])).1

/-! ## C8 — feedback hysteresis band -/

theorem evaluatePerformance_no_security (cfg : FeedbackConfig)
    (current : PerformanceProfile) (cpu_usage avg_latency : Rat) (a : FeedbackAction)
    (h : evaluatePerformance cfg current cpu_usage avg_latency = some a) :
    a.security = none := by
  unfold evaluatePerformance at h
  split_ifs at h
  · cases h; rfl
  · cases h; rfl

theorem evaluateSecurity_between (cfg : FeedbackConfig) (current : SecurityPosture)
    (rate : Rat) (h1 : cfg.rejection_rate_recovery ≤ rate)
    (h2 : rate ≤ cfg.rejection_rate_lockdown) :
    evaluateSecurity cfg current rate = none := by
  have hA : ¬(rate > cfg.rejection_rate_lockdown ∧ current ≠ SecurityPosture.LOCKDOWN) :=
    fun hc => absurd hc.1 (not_lt.mpr h2)
  have hB : ¬(rate < cfg.rejection_rate_recovery ∧ current = SecurityPosture.LOCKDOWN) :=
    fun hc => absurd hc.1 (not_lt.mpr h1)
  simp only [evaluateSecurity, if_neg hA, if_neg hB]

/-- C8: for every feedback state, buffers, posture and profile, whenever
the windowed rejection rate lies in the closed hysteresis band
`[rejection_rate_recovery, rejection_rate_lockdown]` (the defaults
`[0.05, 0.40]`), `evaluate` proposes no security transition: the returned
action, if any, carries no security posture. -/
theorem feedback_hysteresis_no_security (cfg : FeedbackConfig) (st : FeedbackState)
    (latBuf rejBuf : List (Rat × Rat)) (now : Rat) (perf : PerformanceProfile)
    (sec : SecurityPosture) (cpu : Rat)
    (h1 : cfg.rejection_rate_recovery ≤ rejectionRateAt cfg rejBuf now)
    (h2 : rejectionRateAt cfg rejBuf now ≤ cfg.rejection_rate_lockdown) :
    Option.bind (feedbackEvaluate cfg st latBuf rejBuf now perf sec cpu).1
      FeedbackAction.security = none := by
  unfold rejectionRateAt at h1 h2
  dsimp only at h1 h2
  unfold feedbackEvaluate
  dsimp only
  split
  · rfl
  · split
    · rfl
    · split
      · rename_i a hp
        simpa using evaluatePerformance_no_security cfg perf cpu _ a hp
      · rw [evaluateSecurity_between cfg sec _ h1 h2]
        rfl

/-- C8 witness: five in-window observations with one rejection give rate
0.2, inside the default band `[0.05, 0.40]`; no security transition is
proposed. -/
theorem feedback_hysteresis_witness :
    Option.bind (feedbackEvaluate FeedbackConfig.initial FeedbackState.initial []
      [(0, 0), (0, 1), (0, 0), (0, 0), (0, 0)] 0 PerformanceProfile.BALANCED
      SecurityPosture.GUARDED 0).1 FeedbackAction.security = none :=
  feedback_hysteresis_no_security FeedbackConfig.initial FeedbackState.initial []
    [(0, 0), (0, 1), (0, 0), (0, 0), (0, 0)] 0 PerformanceProfile.BALANCED
    SecurityPosture.GUARDED 0
    (by norm_num [rejectionRateAt, windowVals, FeedbackConfig.initial])
    (by norm_num [rejectionRateAt, windowVals, FeedbackConfig.initial])

/-! ## C2 — audit chain verification and tamper evidence -/

/-- `e'` is `e` with a single mutation of its `data`, `prev_hash` or
`entry_hash` field (sequence, timestamp and event type untouched). -/
def mutatedEntry {Dt : Type} (e e' : AuditEntry Dt) : Prop :=
  (∃ d, d ≠ e.data ∧ e' = { e with data := d })
  ∨ (∃ p, p ≠ e.prev_hash ∧ e' = { e with prev_hash := p })
  ∨ (∃ h, h ≠ e.entry_hash ∧ e' = { e with entry_hash := h })

theorem verifyLinked_true_iff {Dt : Type} [DecidableEq Dt] (H : EntryContent Dt → String) :
    ∀ (l : List (AuditEntry Dt)) (ph : String) (i : Nat),
    verifyLinked H ph l i = (true, none) ↔ linkedFrom H ph l
  | [], ph, i => by simp [verifyLinked, linkedFrom]
  | e :: rest, ph, i => by
    have ih := verifyLinked_true_iff H rest e.entry_hash (i + 1)
    by_cases h1 : e.entry_hash = H (contentOf e)
    · by_cases h2 : e.prev_hash = ph
      · simp only [verifyLinked, linkedFrom]
        rw [if_neg (by simp [h1]), if_neg (by simp [h2])]
        exact ⟨fun hv => ⟨h1, h2, ih.mp hv⟩, fun hc => ih.mpr hc.2.2⟩
      · simp [verifyLinked, linkedFrom, h1, h2]
    · simp [verifyLinked, linkedFrom, h1]

theorem linkedFrom_iff_indexed {Dt : Type} (H : EntryContent Dt → String) :
    ∀ (l : List (AuditEntry Dt)) (ph : String),
    linkedFrom H ph l ↔
      ((∀ h0 : 0 < l.length, (l.get ⟨0, h0⟩).prev_hash = ph)
      ∧ (∀ i, ∀ hi : i < l.length,
          (l.get ⟨i, hi⟩).entry_hash = H (contentOf (l.get ⟨i, hi⟩)))
      ∧ (∀ i, ∀ hi : i + 1 < l.length,
          (l.get ⟨i + 1, hi⟩).prev_hash = (l.get ⟨i, Nat.lt_of_succ_lt hi⟩).entry_hash))
  | [], ph => by simp [linkedFrom]
  | e :: rest, ph => by
    have ih := linkedFrom_iff_indexed H rest e.entry_hash
    constructor
    · rintro ⟨h1, h2, h3⟩
      obtain ⟨ih1, ih2, ih3⟩ := ih.mp h3
      refine ⟨fun h0 => by simpa using h2, ?_, ?_⟩
      · intro i hi
        cases i with
        | zero => simpa using h1
        | succ j =>
          have hj : j < rest.length := by simpa using hi
          simpa using ih2 j hj
      · intro i hi
        cases i with
        | zero =>
          have h0r : 0 < rest.length := by simpa using hi
          simpa using ih1 h0r
        | succ j =>
          have hj : j + 1 < rest.length := by simpa using hi
          simpa using ih3 j hj
    · rintro ⟨g1, g2, g3⟩
      refine ⟨?_, ?_, ih.mpr ⟨?_, ?_, ?_⟩⟩
      · simpa using g2 0 (by simp)
      · simpa using g1 (by simp)
      · intro h0r
        simpa using g3 0 (by simpa using Nat.succ_lt_succ h0r)
      · intro j hj
        simpa using g2 (j + 1) (by simpa using Nat.succ_lt_succ hj)
      · intro j hj
        simpa using g3 (j + 1) (by simpa using Nat.succ_lt_succ hj)

theorem wellFormed_iff_linkedFrom {Dt : Type} (H : EntryContent Dt → String)
    (l : List (AuditEntry Dt)) :
    wellFormedChain H l ↔ linkedFrom H GENESIS_HASH l :=
  (linkedFrom_iff_indexed H l GENESIS_HASH).symm

theorem mutated_selfhash_bad {Dt : Type} (H : EntryContent Dt → String)
    (e e' : AuditEntry Dt) (hv : e.entry_hash = H (contentOf e))
    (hmut : mutatedEntry e e')
    (hcol : contentOf e' ≠ contentOf e → H (contentOf e') ≠ H (contentOf e)) :
    e'.entry_hash ≠ H (contentOf e') := by
  rcases hmut with ⟨d, hd, rfl⟩ | ⟨p, hp, rfl⟩ | ⟨h, hh, rfl⟩
  · have hc : contentOf { e with data := d } ≠ contentOf e := by
      intro hceq
      exact hd (congrArg EntryContent.data hceq)
    intro heq
    exact hcol hc (by rw [← heq]; exact hv)
  · have hc : contentOf { e with prev_hash := p } ≠ contentOf e := by
      intro hceq
      exact hp (congrArg EntryContent.prev hceq)
    intro heq
    exact hcol hc (by rw [← heq]; exact hv)
  · intro heq
    exact hh (heq.trans hv.symm)

theorem verifyLinked_set_tamper {Dt : Type} [DecidableEq Dt] (H : EntryContent Dt → String) :
    ∀ (l : List (AuditEntry Dt)) (k : Nat), k < l.length →
    ∀ (e' : AuditEntry Dt) (ph : String) (i : Nat),
    linkedFrom H ph l →
    e'.entry_hash ≠ H (contentOf e') →
    verifyLinked H ph (l.set k e') i = (false, some (i + k))
  | [], k, hk, _, _, _, _, _ => absurd hk (by simp)
  | e :: rest, 0, hk, e', ph, i, hlink, hbad => by
    simp [List.set, verifyLinked, hbad]
  | e :: rest, k + 1, hk, e', ph, i, hlink, hbad => by
    obtain ⟨h1, h2, h3⟩ := hlink
    have hkr : k < rest.length := by
      simp only [List.length_cons] at hk
      omega
    have ih := verifyLinked_set_tamper H rest k hkr e' e.entry_hash (i + 1) h3 hbad
    rw [h1] at ih
    simp [List.set, verifyLinked, h1, h2, ih]
    omega

/-- C2: for every audit chain, `verify_chain` returns `(true, none)` if
and only if entry 0's `prev_hash` is the 64-zero genesis hash, every
entry's stored `entry_hash` is the hash of its canonical content, and
every entry links to its predecessor's `entry_hash`; and on a chain that
verifies, mutating any entry's `data`, `prev_hash` or `entry_hash` makes
`verify_chain` return `(false, i)` for some `i ≤` the modified index
(assuming the mutation does not produce a hash collision between the old
and new contents, which SHA-256's second-preimage resistance is trusted
to rule out — the composition of the canonical key-sorted JSON encoding
and SHA-256 is abstracted as `H`). -/
theorem audit_verify_correct {Dt : Type} [DecidableEq Dt] (H : EntryContent Dt → String)
    (chain : List (AuditEntry Dt)) :
    (verifyChain H chain = (true, none) ↔ wellFormedChain H chain)
    ∧ (∀ k, ∀ hk : k < chain.length, ∀ e' : AuditEntry Dt,
        verifyChain H chain = (true, none) →
        mutatedEntry (chain.get ⟨k, hk⟩) e' →
        (contentOf e' ≠ contentOf (chain.get ⟨k, hk⟩) →
          H (contentOf e') ≠ H (contentOf (chain.get ⟨k, hk⟩))) →
        ∃ i, i ≤ k ∧ verifyChain H (chain.set k e') = (false, some i)) := by
  constructor
  · rw [wellFormed_iff_linkedFrom]
    cases chain with
    | nil => simp [verifyChain, linkedFrom]
    | cons e0 rest =>
      by_cases hg : e0.prev_hash = GENESIS_HASH
      · simp only [verifyChain, hg]
        simp [verifyLinked_true_iff H (e0 :: rest) GENESIS_HASH 0]
      · simp [verifyChain, hg, linkedFrom]
  · intro k hk e' hvalid hmut hcol
    refine ⟨k, le_refl k, ?_⟩
    cases chain with
    | nil => exact absurd hk (by simp)
    | cons e0 rest =>
      have hg : e0.prev_hash = GENESIS_HASH := by
        by_contra hne
        simp [verifyChain, hne] at hvalid
      have hlink : linkedFrom H GENESIS_HASH (e0 :: rest) := by
        rw [← verifyLinked_true_iff H (e0 :: rest) GENESIS_HASH 0]
        simpa [verifyChain, hg] using hvalid
      have hhash : ((e0 :: rest).get ⟨k, hk⟩).entry_hash
          = H (contentOf ((e0 :: rest).get ⟨k, hk⟩)) :=
        ((linkedFrom_iff_indexed H (e0 :: rest) GENESIS_HASH).mp hlink).2.1 k hk
      have hbad := mutated_selfhash_bad H _ e' hhash hmut hcol
      cases k with
      | zero =>
        by_cases hpg : e'.prev_hash = GENESIS_HASH
        · have := verifyLinked_set_tamper H (e0 :: rest) 0 hk e' GENESIS_HASH 0 hlink hbad
          simpa [verifyChain, List.set, hpg] using this
        · simp [verifyChain, List.set, hpg]
      | succ j =>
        obtain ⟨h1, h2, h3⟩ := hlink
        have hj : j < rest.length := by
          simp only [List.length_cons] at hk
          omega
        have ih := verifyLinked_set_tamper H rest j hj e' e0.entry_hash 1 h3 hbad
        rw [h1] at ih
        simp [verifyChain, List.set, hg, verifyLinked, h1, h2, ih]
        omega

/-- A concrete, collision-checkable stand-in hash over `Nat` payloads,
used only to witness the tamper theorem at an explicit input. -/
def natHashW (c : EntryContent Nat) : String :=
  toString c.seq ++ "|" ++ toString c.data ++ "|" ++ c.prev

def entry0W : AuditEntry Nat :=
  { sequence := 0, timestamp := 0, event_type := "decision", data := 5
    prev_hash := GENESIS_HASH
    entry_hash := natHashW ⟨0, 0, "decision", 5, GENESIS_HASH⟩ }

def entry1W : AuditEntry Nat :=
  { sequence := 1, timestamp := 1, event_type := "decision", data := 7
    prev_hash := entry0W.entry_hash
    entry_hash := natHashW ⟨1, 1, "decision", 7, entry0W.entry_hash⟩ }

def chainW : List (AuditEntry Nat) := [entry0W, entry1W]

/-- Entry 1 with one mutated `data` value. -/
def entry1MutW : AuditEntry Nat := { entry1W with data := 8 }

/-- C2 witness: the two-entry chain verifies, and after mutating entry
1's data the verification fails at an index at most 1. -/
theorem audit_tamper_witness :
    verifyChain natHashW chainW = (true, none)
    ∧ ∃ i, i ≤ 1 ∧ verifyChain natHashW (chainW.set 1 entry1MutW) = (false, some i) :=
  ⟨by decide,
    (audit_verify_correct natHashW chainW).2 1 (by decide) entry1MutW (by decide)
      (Or.inl ⟨8, by decide, rfl⟩) (fun _ => by decide)⟩

end Redox
